import Mathlib

/-!
# Verification of the `rmatrix` R-matrix cross-section code

Shallow embedding of the `rmatrix` package (Particle, the Channel
hierarchy, SpinGroup and LargeSpinGroup) together with theorems checking
the natural-language specification against the code.

Python floating point numbers are idealised as real numbers; numpy
arrays become Lean lists or `Fin`-indexed functions; Python `None` and
dynamic typing are modelled with `Option` and a small dynamic-value
type; exceptions become `Except` results.
-/

namespace Rmatrix

/-- `Particle` from `base/particles.py`: a plain data record. -/
structure Particle where
  label : String
  A : ℝ
  Z : ℝ
  Sn : ℝ

/-- The fatal construction errors raised by the channel constructors:
`TypeError` from `AbstractChannel.__init__` (line 134) and the
`sys.exit` call from `ElasticChannel.__init__` (line 103). -/
inductive InitError where
  | typeError
  | sysExit
deriving DecidableEq

/-- `AbstractChannel.__init__` lines 129-131: reduced width amplitudes
derived from partial widths, `sqrt(partial_widths / (2 * pen(resonance_energies)))`,
with the penetrability evaluated at each resonance energy.  `pen` stands
for the subclass `calc_penetrability` method resolved by dynamic dispatch. -/
noncomputable def deriveRWA (pen : ℝ → ℝ) (partial_widths resonance_energies : List ℝ) :
    List ℝ :=
  List.zipWith (fun w E => Real.sqrt (w / (2 * pen E))) partial_widths resonance_energies

/-- `AbstractChannel.__init__` lines 121-134: the amplitude-source
resolution.  Either `reduced_width_amplitudes` is supplied, or both
`partial_widths` and `resonance_energies` are (then the amplitudes are
derived), otherwise a `TypeError` is raised. -/
noncomputable def resolveRWA (pen : ℝ → ℝ) (reduced_width_amplitudes : Option (List ℝ))
    (partial_widths resonance_energies : Option (List ℝ)) :
    Except InitError (List ℝ) :=
  match reduced_width_amplitudes with
  | some a => Except.ok a
  | none =>
    match partial_widths, resonance_energies with
    | some w, some r => Except.ok (deriveRWA pen w r)
    | _, _ => Except.error InitError.typeError

/-- The state built by a successful `ElasticChannel.__init__`
(`self.A = neutron.A + target.A` is set by the abstract base). -/
structure ElasticChannelS where
  A : ℝ
  J : ℝ
  parity : ℝ
  ell : ℤ
  ac : ℝ
  excitation : ℝ
  reduced_width_amplitudes : List ℝ

/-- `ElasticChannel.calc_k` lines 122-124:
`k = 0.002197e12 * A * sqrt(E) / (A + 1)`. -/
noncomputable def elasticKf (A : ℝ) (E : ℝ) : ℝ :=
  0.002197 * 10 ^ 12 * A * Real.sqrt E / (A + 1)

noncomputable def ElasticChannelS.calc_k (c : ElasticChannelS) (E : ℝ) : ℝ :=
  elasticKf c.A E

/-- `ElasticChannel.calc_rho` lines 140-142: `rho = k * (ac * 10^-12)`. -/
noncomputable def ElasticChannelS.calc_rho (c : ElasticChannelS) (E : ℝ) : ℝ :=
  c.calc_k E * (c.ac * 10 ^ (-12 : ℤ))

/-- `ElasticChannel.calc_penetrability` lines 160-161: returns
`calc_rho` when `ell = 0` and falls off the end of the function
(Python `None`) otherwise. -/
noncomputable def ElasticChannelS.calc_penetrability (c : ElasticChannelS) (E : ℝ) :
    Option ℝ :=
  if c.ell = 0 then some (c.calc_rho E) else none

/-- `ElasticChannel.__init__` lines 102-106: `sys.exit` when `ell != 0`,
otherwise the abstract initialiser runs.  On the surviving path
`ell = 0`, so the penetrability used for amplitude derivation is
`calc_rho` of the compound system. -/
noncomputable def elasticInit (neutron target : Particle) (J parity : ℝ) (ell : ℤ)
    (ac : ℝ) (reduced_width_amplitudes partial_widths resonance_energies :
      Option (List ℝ)) :
    Except InitError ElasticChannelS :=
  if ell ≠ 0 then Except.error InitError.sysExit
  else
    match resolveRWA (fun E => elasticKf (neutron.A + target.A) E * (ac * 10 ^ (-12 : ℤ)))
        reduced_width_amplitudes partial_widths resonance_energies with
    | Except.ok a =>
      Except.ok
        { A := neutron.A + target.A, J := J, parity := parity, ell := ell, ac := ac
          excitation := 0, reduced_width_amplitudes := a }
    | Except.error e => Except.error e

/-- The numeric state of a `CaptureChannel` (`self.Sn = product.Sn` plus
the abstract-base attributes). -/
structure CaptureChannelS where
  A : ℝ
  J : ℝ
  parity : ℝ
  ell : ℤ
  ac : ℝ
  excitation : ℝ
  Sn : ℝ
  reduced_width_amplitudes : List ℝ

/-- `CaptureChannel.calc_k` lines 153-157:
`k = (Sn + E - excitation) / (hbar * c)` with `hbar = 6.582119e-16` eV s
and `c = 2.99792e10` cm/s. -/
noncomputable def CaptureChannelS.calc_k (c : CaptureChannelS) (E : ℝ) : ℝ :=
  (c.Sn + E - c.excitation) / (6.582119e-16 * 2.99792e10)

/-- Vectorised `calc_k` over an energy list. -/
noncomputable def CaptureChannelS.calc_k_list (c : CaptureChannelS)
    (incident_energies : List ℝ) : List ℝ :=
  incident_energies.map c.calc_k

/-- `CaptureChannel.calc_rho` lines 173-175. -/
noncomputable def CaptureChannelS.calc_rho (c : CaptureChannelS) (E : ℝ) : ℝ :=
  c.calc_k E * (c.ac * 10 ^ (-12 : ℤ))

/-- `CaptureChannel.calc_penetrability` line 193:
`(k * ac * 10^-12) ^ (2*ell + 1)`. -/
noncomputable def CaptureChannelS.calc_penetrability (c : CaptureChannelS) (E : ℝ) : ℝ :=
  (c.calc_k E * c.ac * 10 ^ (-12 : ℤ)) ^ (2 * c.ell + 1)

/-- A dynamically typed Python argument value, as far as the
`CaptureChannel.__init__` backward-compatibility shim inspects it:
`None`, a scalar, or a list/numpy array. -/
inductive PyVal where
  | vnone
  | num (x : ℝ)
  | arr (xs : List ℝ)

/-- `type(excitation) == list or type(excitation) == np.ndarray`
(`capture_channel.py` line 113). -/
def PyVal.isArr : PyVal → Bool
  | PyVal.arr _ => true
  | _ => false

/-- Interpret a `PyVal` as a real number (used only when the derivation
path evaluates `self.excitation` numerically). -/
def PyVal.asNum : PyVal → ℝ
  | PyVal.num x => x
  | _ => 0

/-- The attributes of a constructed `CaptureChannel` that the
backward-compatibility shim can affect, plus `Sn` (set at line 134) and
a flag recording that the shim's warning text was printed. -/
structure CaptureInitResult where
  Sn : ℝ
  excitation : PyVal
  reduced_width_amplitudes : PyVal
  warned : Bool

/-- `CaptureChannel.__init__` lines 111-136.  When the `excitation`
argument is a list or numpy array the legacy positional signature is
assumed: a warning is printed and the `excitation` and
`reduced_width_amplitudes` argument values are interchanged (lines
128-130).  Then `self.Sn = product.Sn` and the abstract initialiser
runs on the (possibly swapped) values; a non-`None` amplitude value is
used directly, otherwise the partial-width derivation or `TypeError`
follows `AbstractChannel.__init__`. -/
noncomputable def captureInit (primary product : Particle) (J parity : ℝ) (ell : ℤ)
    (ac : ℝ) (excitation reduced_width_amplitudes : PyVal)
    (partial_widths resonance_energies : Option (List ℝ)) :
    Except InitError CaptureInitResult :=
  let doSwap := excitation.isArr
  let exc2 := if doSwap then reduced_width_amplitudes else excitation
  let rwa2 := if doSwap then excitation else reduced_width_amplitudes
  match rwa2 with
  | PyVal.vnone =>
    match partial_widths, resonance_energies with
    | some w, some r =>
      Except.ok
        { Sn := product.Sn, excitation := exc2
          reduced_width_amplitudes :=
            PyVal.arr (deriveRWA
              (CaptureChannelS.calc_penetrability
                { A := primary.A + product.A, J := J, parity := parity
                  ell := ell, ac := ac, excitation := exc2.asNum
                  Sn := product.Sn, reduced_width_amplitudes := [] })
              w r)
          warned := doSwap }
    | _, _ => Except.error InitError.typeError
  | v =>
    Except.ok
      { Sn := product.Sn, excitation := exc2, reduced_width_amplitudes := v
        warned := doSwap }

/-! ## `SpinGroup.set_up_gamma_matrix` and the attribute model

`set_up_gamma_matrix` (`spin_group.py` lines 118-120) fills column `i`
of the gamma matrix from the *attribute read*
`channel.reduced_width_aplitudes`.  To settle whether that read
succeeds we model a channel object by the map from attribute names to
its array-valued attributes, exactly as `AbstractChannel.__init__`
assigns them. -/

/-- A Python channel object, reduced to its array-valued attributes. -/
structure PyChannelObj where
  attrs : String → Option (List ℚ)

/-- The array-valued attributes assigned by `AbstractChannel.__init__`:
line 122 (or 129) binds `self.reduced_width_amplitudes` and no other
array attribute is ever assigned on a channel before the spin group
reads it. -/
def mkChannelAttrs (reduced_width_amplitudes : List ℚ) : String → Option (List ℚ) :=
  fun name =>
    if name = "reduced_width_amplitudes" then some reduced_width_amplitudes else none

/-- `SpinGroup.__init__` line 91: `[incident_channel] + outgoing_channels`. -/
def sgChannels (incident : PyChannelObj) (outgoing : List PyChannelObj) :
    List PyChannelObj :=
  incident :: outgoing

/-- `SpinGroup.set_up_gamma_matrix` lines 118-121: one column per
channel, read from the attribute named `reduced_width_aplitudes`
(line 120 as written in the source).  A missing attribute raises
`AttributeError`.  The result is the list of gamma-matrix columns. -/
def set_up_gamma_matrix (channels : List PyChannelObj) :
    Except String (List (List ℚ)) :=
  channels.mapM fun c =>
    match c.attrs "reduced_width_aplitudes" with
    | some col => Except.ok col
    | none => Except.error "AttributeError"

/-! ## `calc_cross_section` of the two channel variants

`ElasticChannel.calc_cross_section` (lines 189-195) and
`CaptureChannel.calc_cross_section` (lines 220-225) compute a complex
cross-section array from the column `U[:, inc, out]` of the scattering
matrix and the incident `k²` array, assert that the imaginary remainder
at a selected index is below `1e-10` relative to the real part, and
only then drop the imaginary part.  A failed Python `assert` raises
`AssertionError`. -/

/-- `np.argmax` over a real list: index of the first maximal element
(`0` on the empty list, where numpy would raise instead). -/
noncomputable def listArgmax (l : List ℝ) : ℕ :=
  (l.enum.foldl (fun best p => if p.2 > best.2 then p else best) (0, l.headD 0)).1

/-- Elastic cross-section formula (`elastic_channel.py` line 189):
`10^24 * pi / k_sq * (1 - 2 Re U + conj(U) * U)` per energy point. -/
noncomputable def elasticSigma (Ucol : List ℂ) (k_sq : List ℝ) : List ℂ :=
  List.zipWith
    (fun u k =>
      (((10 : ℝ) ^ 24 * Real.pi / k : ℝ) : ℂ) *
        (1 - 2 * (u.re : ℂ) + (starRingEnd ℂ) u * u))
    Ucol k_sq

/-- Capture cross-section formula (`capture_channel.py` line 220):
`10^24 * pi / k_sq * conj(U) * U` per energy point. -/
noncomputable def captureSigma (Ucol : List ℂ) (k_sq : List ℝ) : List ℂ :=
  List.zipWith
    (fun u k => (((10 : ℝ) ^ 24 * Real.pi / k : ℝ) : ℂ) * ((starRingEnd ℂ) u * u))
    Ucol k_sq

/-- The value the elastic assert tests (lines 192-193): the relative
imaginary part at `argmax(sigma.imag / sigma.real)`. -/
noncomputable def elasticCheckVal (Ucol : List ℂ) (k_sq : List ℝ) : ℝ :=
  let σ := elasticSigma Ucol k_sq
  let z := σ.getD (listArgmax (σ.map fun w => w.im / w.re)) 0
  z.im / z.re

/-- The value the capture assert tests (lines 223-224): the relative
imaginary part at `argmax(sigma.imag)`. -/
noncomputable def captureCheckVal (Ucol : List ℂ) (k_sq : List ℝ) : ℝ :=
  let σ := captureSigma Ucol k_sq
  let z := σ.getD (listArgmax (σ.map Complex.im)) 0
  z.im / z.re

/-- `ElasticChannel.calc_cross_section`: the assert guards the
imaginary-part discard; on failure the call raises. -/
noncomputable def elastic_calc_cross_section (Ucol : List ℂ) (k_sq : List ℝ) :
    Except String (List ℝ) :=
  if elasticCheckVal Ucol k_sq < 1e-10 then
    Except.ok ((elasticSigma Ucol k_sq).map Complex.re)
  else Except.error "AssertionError"

/-- `CaptureChannel.calc_cross_section`: the assert guards the
imaginary-part discard; on failure the call raises. -/
noncomputable def capture_calc_cross_section (Ucol : List ℂ) (k_sq : List ℝ) :
    Except String (List ℝ) :=
  if captureCheckVal Ucol k_sq < 1e-10 then
    Except.ok ((captureSigma Ucol k_sq).map Complex.re)
  else Except.error "AssertionError"

/-! ## `LargeSpinGroup` (`large_spin_group.py`)

The incremental spin group.  A channel enters this code only through
its `reduced_width_amplitudes` array and its `calc_penetrability` and
`calc_rho` methods evaluated on the energy grid, so a channel is
modelled by those three functions.  Matrices are `ℕ`-indexed functions
together with the channel count `Nc`; the `P` and `Omega` layout is
`(row, column, energy)` exactly as in the source before the final
`moveaxis`. -/

/-- A channel as seen by `LargeSpinGroup`: the dynamic-dispatch surface. -/
structure LSGChan where
  reduced_width_amplitudes : ℕ → ℝ
  pen : ℝ → ℝ
  rho : ℝ → ℝ

/-- View a `CaptureChannelS` through the `LargeSpinGroup` interface. -/
noncomputable def captureToLSG (c : CaptureChannelS) : LSGChan where
  reduced_width_amplitudes := fun i => c.reduced_width_amplitudes.getD i 0
  pen := c.calc_penetrability
  rho := c.calc_rho

/-- The mutable state of a `LargeSpinGroup` relevant to `add_channel`. -/
structure LSGState where
  Nc : ℕ
  gamma : ℕ → ℕ → ℝ
  Pmat : ℕ → ℕ → ℕ → ℝ
  Omega : ℕ → ℕ → ℕ → ℂ

/-- `LargeSpinGroup.__init__` lines 12-29: one channel, `gamma` the
incident amplitude column, `P` and `Omega` the `(1,1,Ne)` arrays of the
incident penetrability and phase factor `exp(-i rho)`. -/
noncomputable def lsgInit (incident : LSGChan) (grid : ℕ → ℝ) : LSGState where
  Nc := 1
  gamma := fun l c => if c = 0 then incident.reduced_width_amplitudes l else 0
  Pmat := fun i j e => if i = 0 ∧ j = 0 then incident.pen (grid e) else 0
  Omega := fun i j e =>
    if i = 0 ∧ j = 0 then Complex.exp (-Complex.I * (incident.rho (grid e) : ℝ)) else 0

/-- `LargeSpinGroup.add_channel` lines 38-68.  The gamma matrix gains
the channel's amplitude column; `P` and `Omega` are padded on the right
with a zero column block (lines 48-53); the new bottom rows are built
(lines 56-62: `new_P` carries the channel's penetrability in the last
slot, `new_Omega` its phase factor); finally the new rows are stacked
below (lines 65-66).  Line 66 as written stacks `new_P` onto `Omega`;
the `new_Omega` row is built but never used. -/
noncomputable def lsgAddChannel (s : LSGState) (channel : LSGChan) (grid : ℕ → ℝ) :
    LSGState :=
  let nc := s.Nc
  let P1 : ℕ → ℕ → ℕ → ℝ := fun i j e => if j < nc then s.Pmat i j e else 0
  let Omega1 : ℕ → ℕ → ℕ → ℂ := fun i j e => if j < nc then s.Omega i j e else 0
  let newP : ℕ → ℕ → ℝ := fun j e => if j < nc then 0 else channel.pen (grid e)
  let newOmega : ℕ → ℕ → ℂ := fun j e =>
    if j < nc then 0 else Complex.exp (-Complex.I * (channel.rho (grid e) : ℝ))
  { Nc := nc + 1
    gamma := fun l j => if j < nc then s.gamma l j else channel.reduced_width_amplitudes l
    Pmat := fun i j e => if i < nc then P1 i j e else newP j e
    -- line 66: `np.vstack((self.Omega_matrix, new_P))`
    Omega := fun i j e => if i < nc then Omega1 i j e else ((newP j e : ℝ) : ℂ) }

/-! ## The `SpinGroup` matrix pipeline (`spin_group.py`)

The pipeline stages 2-8 of the spec.  `Nc = m + 1` channels (index `0`
is the incident channel), `Nl` resonances, `Ne` grid points.  A channel
enters the pipeline only through its amplitude vector and its
`calc_penetrability`, `calc_rho`, `calc_k` and `calc_cross_section`
methods, so a channel is modelled by that dispatch surface. -/

/-- A channel as seen by `SpinGroup`. -/
structure SGChan (Nl m Ne : ℕ) where
  reduced_width_amplitudes : Fin Nl → ℝ
  pen : ℝ → ℝ
  rho : ℝ → ℝ
  kfn : ℝ → ℝ
  xs : (Fin Ne → Matrix (Fin (m + 1)) (Fin (m + 1)) ℂ) → (Fin Ne → ℝ) →
    Fin (m + 1) → Fin (m + 1) → (Fin Ne → ℂ)

variable {Nl m Ne : ℕ}

/-- `set_up_L_matrix` line 137: diagonal penetrability matrix per energy. -/
noncomputable def buildP (channels : Fin (m + 1) → SGChan Nl m Ne) (grid : Fin Ne → ℝ) :
    Fin Ne → Matrix (Fin (m + 1)) (Fin (m + 1)) ℝ :=
  fun e => Matrix.diagonal fun i => (channels i).pen (grid e)

/-- `set_up_L_matrix` line 138: elementwise square root. -/
noncomputable def buildPhalf (P : Fin Ne → Matrix (Fin (m + 1)) (Fin (m + 1)) ℝ) :
    Fin Ne → Matrix (Fin (m + 1)) (Fin (m + 1)) ℝ :=
  fun e => (P e).map Real.sqrt

/-- `set_up_L_matrix` line 141: `L = 1j * P`. -/
noncomputable def buildL (P : Fin Ne → Matrix (Fin (m + 1)) (Fin (m + 1)) ℝ) :
    Fin Ne → Matrix (Fin (m + 1)) (Fin (m + 1)) ℂ :=
  fun e => (P e).map fun x => Complex.I * (x : ℂ)

/-- `set_up_A_matrix` lines 156-161: diagonal complex matrix of
resonance energies minus the grid energy. -/
noncomputable def buildEnergyMat (res_energies : Fin Nl → ℝ) (grid : Fin Ne → ℝ) :
    Fin Ne → Matrix (Fin Nl) (Fin Nl) ℂ :=
  fun e => Matrix.diagonal fun l => ((res_energies l - grid e : ℝ) : ℂ)

/-- `set_up_A_matrix` line 163: `A_inv = energy_matrix - gamma L gamma^T`. -/
noncomputable def buildAinv (energyMat : Fin Ne → Matrix (Fin Nl) (Fin Nl) ℂ)
    (L : Fin Ne → Matrix (Fin (m + 1)) (Fin (m + 1)) ℂ)
    (gamma : Matrix (Fin Nl) (Fin (m + 1)) ℝ) :
    Fin Ne → Matrix (Fin Nl) (Fin Nl) ℂ :=
  fun e =>
    energyMat e -
      gamma.map ((↑) : ℝ → ℂ) * L e * (gamma.map ((↑) : ℝ → ℂ)).transpose

/-- `set_up_A_matrix` line 164: per-energy matrix inverse. -/
noncomputable def buildA (Ainv : Fin Ne → Matrix (Fin Nl) (Fin Nl) ℂ) :
    Fin Ne → Matrix (Fin Nl) (Fin Nl) ℂ :=
  fun e => (Ainv e)⁻¹

/-- `calc_cross_section` line 183:
`W = I + 2i * P_half gamma^T A gamma P_half`. -/
noncomputable def buildW (Phalf : Fin Ne → Matrix (Fin (m + 1)) (Fin (m + 1)) ℝ)
    (gamma : Matrix (Fin Nl) (Fin (m + 1)) ℝ)
    (A : Fin Ne → Matrix (Fin Nl) (Fin Nl) ℂ) :
    Fin Ne → Matrix (Fin (m + 1)) (Fin (m + 1)) ℂ :=
  fun e =>
    1 +
      (2 * Complex.I) •
        ((Phalf e).map ((↑) : ℝ → ℂ) * (gamma.map ((↑) : ℝ → ℂ)).transpose * A e *
          gamma.map ((↑) : ℝ → ℂ) * (Phalf e).map ((↑) : ℝ → ℂ))

/-- `calc_cross_section` lines 187-189: diagonal phase matrix
`Omega[e,i,i] = exp(-i rho_i(grid[e]))`. -/
noncomputable def buildOmega (channels : Fin (m + 1) → SGChan Nl m Ne)
    (grid : Fin Ne → ℝ) :
    Fin Ne → Matrix (Fin (m + 1)) (Fin (m + 1)) ℂ :=
  fun e => Matrix.diagonal fun i => Complex.exp (-Complex.I * ((channels i).rho (grid e) : ℝ))

/-- `calc_cross_section` line 190: `U = Omega W Omega`. -/
noncomputable def buildU (Omega W : Fin Ne → Matrix (Fin (m + 1)) (Fin (m + 1)) ℂ) :
    Fin Ne → Matrix (Fin (m + 1)) (Fin (m + 1)) ℂ :=
  fun e => Omega e * W e * Omega e

/-- `calc_cross_section` line 193: squared incident wave number. -/
noncomputable def buildKsq (channels : Fin (m + 1) → SGChan Nl m Ne)
    (grid : Fin Ne → ℝ) : Fin Ne → ℝ :=
  fun e => ((channels 0).kfn (grid e)) ^ 2

/-- `calc_cross_section` line 196: total cross section
`10^24 * 2 pi / k_sq * (1 - Re U[:,0,0])`. -/
noncomputable def buildTotal (U : Fin Ne → Matrix (Fin (m + 1)) (Fin (m + 1)) ℂ)
    (k_sq : Fin Ne → ℝ) : Fin Ne → ℝ :=
  fun e => 10 ^ 24 * 2 * Real.pi / k_sq e * (1 - (U e 0 0).re)

/-- `calc_cross_section` lines 199-200: per-channel dispatch
`channel.calc_cross_section(U, k_sq, 0, i)`. -/
noncomputable def buildChannelXS (channels : Fin (m + 1) → SGChan Nl m Ne)
    (U : Fin Ne → Matrix (Fin (m + 1)) (Fin (m + 1)) ℂ) (k_sq : Fin Ne → ℝ) :
    Fin (m + 1) → Fin Ne → ℂ :=
  fun i => (channels i).xs U k_sq 0 i

/-- The fully evaluated state of a `SpinGroup`. -/
structure SGState (Nl m Ne : ℕ) where
  res_energies : Fin Nl → ℝ
  channels : Fin (m + 1) → SGChan Nl m Ne
  grid : Fin Ne → ℝ
  gamma : Matrix (Fin Nl) (Fin (m + 1)) ℝ
  Pmat : Fin Ne → Matrix (Fin (m + 1)) (Fin (m + 1)) ℝ
  Phalf : Fin Ne → Matrix (Fin (m + 1)) (Fin (m + 1)) ℝ
  Lmat : Fin Ne → Matrix (Fin (m + 1)) (Fin (m + 1)) ℂ
  Ainv : Fin Ne → Matrix (Fin Nl) (Fin Nl) ℂ
  Amat : Fin Ne → Matrix (Fin Nl) (Fin Nl) ℂ
  Umat : Fin Ne → Matrix (Fin (m + 1)) (Fin (m + 1)) ℂ
  total_cross_section : Fin Ne → ℝ
  channel_cross_sections : Fin (m + 1) → Fin Ne → ℂ

/-- A `SpinGroup` evaluated with a given gamma matrix: pipeline steps
2-8 of `SpinGroup.__init__` with the gamma matrix `G` in place of the
one assembled by `set_up_gamma_matrix`.  This is the fresh object the
update contract compares against. -/
noncomputable def mkSpinGroupWithGamma (res_energies : Fin Nl → ℝ)
    (channels : Fin (m + 1) → SGChan Nl m Ne) (grid : Fin Ne → ℝ)
    (G : Matrix (Fin Nl) (Fin (m + 1)) ℝ) : SGState Nl m Ne :=
  let P := buildP channels grid
  let Phalf := buildPhalf P
  let L := buildL P
  let Ainv := buildAinv (buildEnergyMat res_energies grid) L G
  let A := buildA Ainv
  let W := buildW Phalf G A
  let Omega := buildOmega channels grid
  let U := buildU Omega W
  let k_sq := buildKsq channels grid
  { res_energies := res_energies, channels := channels, grid := grid, gamma := G
    Pmat := P, Phalf := Phalf, Lmat := L, Ainv := Ainv, Amat := A, Umat := U
    total_cross_section := buildTotal U k_sq
    channel_cross_sections := buildChannelXS channels U k_sq }

/-- Modelled from the spec: `update_gamma_matrix` is called by
`spin_group_tests.py` but no such method exists under `src/`.  Spec
§4.3: "an `update_gamma_matrix` operation replaces the gamma matrix in
place and must re-run steps 4-8 (A, W, Omega unaffected by gamma except
through A; U and all cross sections must reflect the new gamma)".
Steps 4-8 are re-run on the stored state: the energy matrix is rebuilt
from the stored resonance energies and grid (as `set_up_A_matrix` does
on every call), while `P`, `P_half` and `L` from step 2 are reused. -/
noncomputable def update_gamma_matrix (s : SGState Nl m Ne)
    (G : Matrix (Fin Nl) (Fin (m + 1)) ℝ) : SGState Nl m Ne :=
  let Ainv := buildAinv (buildEnergyMat s.res_energies s.grid) s.Lmat G
  let A := buildA Ainv
  let W := buildW s.Phalf G A
  let Omega := buildOmega s.channels s.grid
  let U := buildU Omega W
  let k_sq := buildKsq s.channels s.grid
  { s with gamma := G, Ainv := Ainv, Amat := A, Umat := U
           total_cross_section := buildTotal U k_sq
           channel_cross_sections := buildChannelXS s.channels U k_sq }

/-! ## Theorems -/

/-- C6: a Channel construction raises `TypeError` exactly when
`reduced_width_amplitudes` is absent and the pair
`(partial_widths, resonance_energies)` is not both supplied; supplying
the amplitudes, or both members of the pair, avoids this error. -/
theorem channel_amplitude_source_type_error (pen : ℝ → ℝ)
    (reduced_width_amplitudes partial_widths resonance_energies : Option (List ℝ)) :
    resolveRWA pen reduced_width_amplitudes partial_widths resonance_energies =
        Except.error InitError.typeError ↔
      reduced_width_amplitudes = none ∧
        (partial_widths = none ∨ resonance_energies = none) := by
  cases reduced_width_amplitudes <;> cases partial_widths <;>
    cases resonance_energies <;> simp [resolveRWA]

/-- C7: constructing an `ElasticChannel` fails fast with the fatal
`sys.exit` error precisely when `ell ≠ 0`, regardless of the other
arguments; with `ell = 0` that error never occurs. -/
theorem elastic_ell_guard (neutron target : Particle) (J parity : ℝ) (ell : ℤ)
    (ac : ℝ) (reduced_width_amplitudes partial_widths resonance_energies :
      Option (List ℝ)) :
    elasticInit neutron target J parity ell ac reduced_width_amplitudes
        partial_widths resonance_energies = Except.error InitError.sysExit ↔
      ell ≠ 0 := by
  by_cases h : ell = 0
  · simp only [elasticInit, h]
    cases hr : resolveRWA (fun E =>
        elasticKf (neutron.A + target.A) E * (ac * 10 ^ (-12 : ℤ)))
        reduced_width_amplitudes partial_widths resonance_energies with
    | ok a => simp [hr]
    | error e =>
      cases e with
      | typeError => simp [hr]
      | sysExit =>
        -- `resolveRWA` never produces the `sys.exit` error
        exfalso
        cases reduced_width_amplitudes <;> cases partial_widths <;>
          cases resonance_energies <;> simp [resolveRWA] at hr
  · simp [elasticInit, h]

/-- C9: `CaptureChannel.calc_k` returns `(Sn + E - excitation)/(hbar c)`
element-wise, and below threshold (`Sn + E < excitation`) the wave
number is negative — not clamped. -/
theorem capture_calc_k_formula (c : CaptureChannelS) (Es : List ℝ) (E : ℝ)
    (hE : E ∈ Es) (hth : c.Sn + E < c.excitation) :
    c.calc_k_list Es =
        Es.map (fun E2 => (c.Sn + E2 - c.excitation) / (6.582119e-16 * 2.99792e10)) ∧
      c.calc_k E < 0 := by
  refine ⟨rfl, ?_⟩
  have hnum : c.Sn + E - c.excitation < 0 := by linarith
  have hden : (0 : ℝ) < 6.582119e-16 * 2.99792e10 := by norm_num
  exact div_neg_of_neg_of_pos hnum hden

/-- Witness for C9: a sub-threshold capture channel
(`Sn = 6.8e6` eV, excitation `7e6` eV, incident energy `0`). -/
theorem capture_calc_k_formula_witness :
    CaptureChannelS.calc_k_list ⟨182, 3, 1, 0, 0.2, 7e6, 6.8e6, [1]⟩ [0] =
        [0].map (fun E2 => ((6.8e6 : ℝ) + E2 - 7e6) / (6.582119e-16 * 2.99792e10)) ∧
      CaptureChannelS.calc_k ⟨182, 3, 1, 0, 0.2, 7e6, 6.8e6, [1]⟩ 0 < 0 :=
  capture_calc_k_formula ⟨182, 3, 1, 0, 0.2, 7e6, 6.8e6, [1]⟩ [0] 0 (by simp)
    (by norm_num)

/-- C4: deriving amplitudes from partial widths and resonance energies
round-trips: `2 * amplitude_i^2 * pen(resonance_energy_i)` recovers the
original partial width, and every derived amplitude is non-negative. -/
theorem derive_rwa_round_trip (pen : ℝ → ℝ) (partial_widths resonance_energies : List ℝ)
    (hlen : partial_widths.length = resonance_energies.length) (i : ℕ)
    (hi : i < partial_widths.length) (hw : 0 ≤ partial_widths.getD i 0)
    (hp : 0 < pen (resonance_energies.getD i 0)) :
    resolveRWA pen none (some partial_widths) (some resonance_energies) =
        Except.ok (deriveRWA pen partial_widths resonance_energies) ∧
      2 * (deriveRWA pen partial_widths resonance_energies).getD i 0 ^ 2 *
          pen (resonance_energies.getD i 0) = partial_widths.getD i 0 ∧
      0 ≤ (deriveRWA pen partial_widths resonance_energies).getD i 0 := by
  have hir : i < resonance_energies.length := hlen ▸ hi
  have hid : i < (deriveRWA pen partial_widths resonance_energies).length := by
    simpa [deriveRWA, List.length_zipWith, hlen] using hir
  have hgd : (deriveRWA pen partial_widths resonance_energies).getD i 0 =
      Real.sqrt (partial_widths.getD i 0 / (2 * pen (resonance_energies.getD i 0))) := by
    rw [List.getD_eq_getElem _ _ hid, List.getD_eq_getElem _ _ hi,
      List.getD_eq_getElem _ _ hir]
    simp [deriveRWA]
  refine ⟨rfl, ?_, ?_⟩
  · set w := partial_widths.getD i 0 with hw2
    set p := pen (resonance_energies.getD i 0) with hp2
    rw [hgd, Real.sq_sqrt (div_nonneg hw (by linarith))]
    have h2p : (2 : ℝ) * p ≠ 0 := mul_ne_zero two_ne_zero hp.ne'
    have hre : 2 * (w / (2 * p)) * p = w / (2 * p) * (2 * p) := by ring
    rw [hre, div_mul_cancel₀ _ h2p]
  · rw [hgd]
    exact Real.sqrt_nonneg _

/-- Witness for C4: one resonance, partial width `2`, constant unit
penetrability. -/
theorem derive_rwa_round_trip_witness :
    resolveRWA (fun _ => 1) none (some [2]) (some [5]) =
        Except.ok (deriveRWA (fun _ => 1) [2] [5]) ∧
      2 * (deriveRWA (fun _ => 1) [2] [5]).getD 0 0 ^ 2 * 1 = 2 ∧
      0 ≤ (deriveRWA (fun _ => 1) [2] [5]).getD 0 0 :=
  derive_rwa_round_trip (fun _ => 1) [2] [5] rfl 0 (by norm_num) (by norm_num)
    (by norm_num)

/-- C8: every successfully constructed `ElasticChannel` has `ell = 0`,
and its `calc_penetrability` equals its `calc_rho` exactly. -/
theorem elastic_pen_eq_rho (neutron target : Particle) (J parity : ℝ) (ell : ℤ)
    (ac : ℝ) (reduced_width_amplitudes partial_widths resonance_energies :
      Option (List ℝ)) (c : ElasticChannelS)
    (h : elasticInit neutron target J parity ell ac reduced_width_amplitudes
      partial_widths resonance_energies = Except.ok c)
    (E : ℝ) (hE : 0 ≤ E) :
    c.calc_penetrability E = some (c.calc_rho E) := by
  have hc : c.ell = 0 := by
    by_cases hell : ell = 0
    · simp only [elasticInit, hell] at h
      cases hr : resolveRWA (fun E =>
          elasticKf (neutron.A + target.A) E * (ac * 10 ^ (-12 : ℤ)))
          reduced_width_amplitudes partial_widths resonance_energies with
      | ok a =>
        rw [hr] at h
        simp only [if_neg (by simp : ¬ (0 : ℤ) ≠ 0)] at h
        cases h
        rfl
      | error e =>
        rw [hr] at h
        simp [if_neg (by simp : ¬ (0 : ℤ) ≠ 0)] at h
    · simp [elasticInit, hell] at h
  simp [ElasticChannelS.calc_penetrability, hc]

/-- Witness for C8: the s-wave elastic channel of the test suite,
evaluated at `E = 1` eV. -/
theorem elastic_pen_eq_rho_witness :
    ElasticChannelS.calc_penetrability ⟨1 + 181, 3, 1, 0, 0.2, 0, [1]⟩ 1 =
      some (ElasticChannelS.calc_rho ⟨1 + 181, 3, 1, 0, 0.2, 0, [1]⟩ 1) :=
  elastic_pen_eq_rho ⟨"n", 1, 1, 0⟩ ⟨"181Ta", 181, 73, 0⟩ 3 1 0 0.2 (some [1])
    none none ⟨1 + 181, 3, 1, 0, 0.2, 0, [1]⟩ rfl 1 (by norm_num)

/-- C10: passing a list/array in the `excitation` position of
`CaptureChannel` triggers the legacy-signature shim: the warning is
printed, the `excitation` and `reduced_width_amplitudes` values are
swapped, and construction succeeds with the swapped values. -/
theorem capture_legacy_swap (primary product : Particle) (J parity : ℝ) (ell : ℤ)
    (ac : ℝ) (l : List ℝ) (reduced_width_amplitudes : PyVal)
    (partial_widths resonance_energies : Option (List ℝ)) :
    captureInit primary product J parity ell ac (PyVal.arr l)
        reduced_width_amplitudes partial_widths resonance_energies =
      Except.ok
        { Sn := product.Sn, excitation := reduced_width_amplitudes
          reduced_width_amplitudes := PyVal.arr l, warned := true } :=
  rfl

/-- C1 (code bug): `SpinGroup.set_up_gamma_matrix` reads the attribute
`reduced_width_aplitudes` (note the missing `m`, line 120), which
`AbstractChannel.__init__` never assigns — it assigns
`reduced_width_amplitudes`.  On the two-resonance, incident-plus-two
channel input of the test suite the read raises `AttributeError`
instead of producing the gamma matrix, so the constructor never
completes. -/
theorem spin_group_gamma_attribute_error :
    set_up_gamma_matrix
        (sgChannels ⟨mkChannelAttrs [106, 108]⟩
          [⟨mkChannelAttrs [3, 2]⟩, ⟨mkChannelAttrs [4, 5]⟩]) =
      Except.error "AttributeError" ∧
    mkChannelAttrs [106, 108] "reduced_width_amplitudes" = some [106, 108] ∧
    mkChannelAttrs [106, 108] "reduced_width_aplitudes" = none :=
  ⟨rfl, rfl, rfl⟩

/-- A capture channel whose penetrability and `rho` at grid energy `0`
both equal `2` exactly: `Sn` is twice `hbar*c`, the excitation is `0`
and the radius parameter cancels the `10^-12` conversion. -/
noncomputable def lsgBugChannel : CaptureChannelS :=
  { A := 182, J := 3, parity := 1, ell := 0, ac := 10 ^ 12, excitation := 0
    Sn := 2 * (6.582119e-16 * 2.99792e10), reduced_width_amplitudes := [1, 1] }

/-- C2 (code bug): after `LargeSpinGroup.add_channel`, the new diagonal
entry of `Omega` holds the channel's **penetrability** (line 66 stacks
`new_P` onto `Omega`), not the phase factor `exp(-i rho)`: at the
concrete channel `lsgBugChannel` on the one-point grid `[0]` the stored
entry is `2` while the phase factor is `exp(-2i)`, which differs. -/
theorem lsg_omega_padding_bug :
    (lsgAddChannel (lsgInit (captureToLSG lsgBugChannel) fun _ => 0)
          (captureToLSG lsgBugChannel) fun _ => 0).Omega 1 1 0 =
        ((2 : ℝ) : ℂ) ∧
      Complex.exp (-Complex.I * ((captureToLSG lsgBugChannel).rho 0 : ℝ)) ≠
        (lsgAddChannel (lsgInit (captureToLSG lsgBugChannel) fun _ => 0)
          (captureToLSG lsgBugChannel) fun _ => 0).Omega 1 1 0 := by
  have hk : lsgBugChannel.calc_k 0 = 2 := by
    simp only [CaptureChannelS.calc_k, lsgBugChannel]
    norm_num
  have hpen : (captureToLSG lsgBugChannel).pen 0 = 2 := by
    simp only [captureToLSG, CaptureChannelS.calc_penetrability, hk]
    norm_num [lsgBugChannel]
  have hrho : (captureToLSG lsgBugChannel).rho 0 = 2 := by
    simp only [captureToLSG, CaptureChannelS.calc_rho, hk]
    norm_num [lsgBugChannel]
  have hOmega :
      (lsgAddChannel (lsgInit (captureToLSG lsgBugChannel) fun _ => 0)
          (captureToLSG lsgBugChannel) fun _ => 0).Omega 1 1 0 = ((2 : ℝ) : ℂ) := by
    simp only [lsgAddChannel, lsgInit, hpen]
    norm_num
  refine ⟨hOmega, ?_⟩
  rw [hOmega, hrho]
  intro h
  have h1 := congrArg Complex.abs h
  rw [Complex.abs_exp] at h1
  have hre : (-Complex.I * ((2 : ℝ) : ℂ)).re = 0 := by simp
  rw [hre, Real.exp_zero, Complex.abs_ofReal] at h1
  norm_num at h1

/-- C3: replacing the gamma matrix via `update_gamma_matrix` and
re-running pipeline steps 4-8 yields exactly the state of a fresh
`SpinGroup` evaluated with the new gamma matrix over the same resonance
energies, channels and grid — in particular the same `U` matrix, total
cross section and per-channel cross sections (no history leakage).
`update_gamma_matrix` itself is modelled from the spec, being absent
from the source. -/
theorem update_gamma_matrix_no_history (res_energies : Fin Nl → ℝ)
    (channels : Fin (m + 1) → SGChan Nl m Ne) (grid : Fin Ne → ℝ)
    (G0 G : Matrix (Fin Nl) (Fin (m + 1)) ℝ) :
    update_gamma_matrix (mkSpinGroupWithGamma res_energies channels grid G0) G =
      mkSpinGroupWithGamma res_energies channels grid G :=
  rfl

/-- C5: in both channel variants, `calc_cross_section` raises
`AssertionError` exactly when the checked relative imaginary remainder
of the computed cross section fails the `< 1e-10` bound, and returns
the real parts exactly when the check passes — a failed check is never
silently ignored. -/
theorem calc_cross_section_imag_assert (Ucol : List ℂ) (k_sq : List ℝ) :
    (elastic_calc_cross_section Ucol k_sq = Except.error "AssertionError" ↔
        ¬ elasticCheckVal Ucol k_sq < 1e-10) ∧
      (elastic_calc_cross_section Ucol k_sq =
          Except.ok ((elasticSigma Ucol k_sq).map Complex.re) ↔
        elasticCheckVal Ucol k_sq < 1e-10) ∧
      (capture_calc_cross_section Ucol k_sq = Except.error "AssertionError" ↔
        ¬ captureCheckVal Ucol k_sq < 1e-10) ∧
      (capture_calc_cross_section Ucol k_sq =
          Except.ok ((captureSigma Ucol k_sq).map Complex.re) ↔
        captureCheckVal Ucol k_sq < 1e-10) := by
  refine ⟨?_, ?_, ?_, ?_⟩
  · by_cases h : elasticCheckVal Ucol k_sq < 1e-10 <;>
      simp [elastic_calc_cross_section, h]
  · by_cases h : elasticCheckVal Ucol k_sq < 1e-10 <;>
      simp [elastic_calc_cross_section, h]
  · by_cases h : captureCheckVal Ucol k_sq < 1e-10 <;>
      simp [capture_calc_cross_section, h]
  · by_cases h : captureCheckVal Ucol k_sq < 1e-10 <;>
      simp [capture_calc_cross_section, h]

end Rmatrix
